import Mathlib

/-!
Verification development for the passive-monitoring / thread-watch lifecycle
engine of a Slack bot (modules `passive_monitoring.py`, `thread_link_storage.py`,
`session_manager.py`).  The Python code is shallowly embedded: dictionaries
become association lists, `datetime.now()` becomes an explicit integer
parameter, external network calls become explicit oracle values, and the
`try/except` of per-thread processing becomes explicit propagation of an
error value that the wrapper turns into a normal result.
-/

set_option autoImplicit false

namespace SlackEngine

/-- Python truthiness of `event.get(k)` for a string-valued field:
`None` and the empty string are falsy. -/
def truthy : Option String → Bool
  | none => false
  | some s => !(s == "")

/-- Does the character list `p` occur as a leading segment of `s`?
Helper for the embedding of Python's substring test `p in s`. -/
def leads_chars : List Char → List Char → Bool
  | _, [] => true
  | [], _ :: _ => false
  | c :: cs, p :: ps => c == p && leads_chars cs ps

/-- Does `p` occur as a contiguous segment of `s`? -/
def has_sub_chars : List Char → List Char → Bool
  | [], p => p.isEmpty
  | c :: cs, p => leads_chars (c :: cs) p || has_sub_chars cs p

/-- Embedding of Python's `pat in s` on strings. -/
def contains_sub (s pat : String) : Bool := has_sub_chars s.data pat.data

/-- One entry of `PassiveMessageHandler.watched_threads`
(`passive_monitoring.py`, lines 72-78). -/
structure WatchData where
  channel_id : String
  thread_ts : String
  user_id : String
  text : String
  timestamp : Int
  deriving DecidableEq

/-- The watch registry `self.watched_threads`: a Python dict keyed by the
string `f"{channel_id}-{ts}"`, embedded as an association list. -/
abbrev Registry := List (String × WatchData)

/-- Embedding of Python dict item assignment `d[k] = v`
(same lookup semantics: the key maps to `v`, other keys unchanged). -/
def reg_insert (reg : Registry) (k : String) (v : WatchData) : Registry :=
  (k, v) :: reg.filter fun p => !(p.1 == k)

/-- Embedding of Python `del d[k]` (all entries at key `k` disappear). -/
def reg_erase (reg : Registry) (k : String) : Registry :=
  reg.filter fun p => !(p.1 == k)

/-- An inbound Slack message event, with the optional fields
`handle_message` reads via `event.get`. -/
structure MsgEvent where
  channel : Option String
  bot_id : Option String
  text : Option String
  thread_ts : Option String
  ts : Option String
  user : Option String
  deriving DecidableEq

/-- The registry write of `handle_message` lines 71-78: insert/overwrite a
watch keyed by `f"{channel_id}-{message_ts}"`, timestamped `now`
(the spec's `add_or_replace`). -/
def add_or_replace (reg : Registry) (ch mts uid text : String) (now : Int) : Registry :=
  reg_insert reg (ch ++ "-" ++ mts) ⟨ch, mts, uid, text, now⟩

/-- The reply branch of `handle_message` lines 51-62 (the spec's
`remove_on_reply`): if a watch exists at the key and the replier differs
from the watch author, delete the watch; otherwise leave the registry alone. -/
def remove_on_reply (reg : Registry) (ch tts : String) (replier : Option String) : Registry :=
  match reg.lookup (ch ++ "-" ++ tts) with
  | some wd => if replier ≠ some wd.user_id then reg_erase reg (ch ++ "-" ++ tts) else reg
  | none => reg

/-- The top-level branch of `handle_message` lines 64-80: watch the message
when `all([channel_id, message_ts, user_id, text])` holds. -/
def handle_top_level (reg : Registry) (ch : String) (ev : MsgEvent) (now : Int) : Registry :=
  if !(ch == "") && truthy ev.ts && truthy ev.user && truthy ev.text then
    add_or_replace reg ch (ev.ts.getD "") (ev.user.getD "") (ev.text.getD "") now
  else reg

/-- `PassiveMessageHandler.handle_message` (lines 40-80).  `mon` is
`self.monitored_channels`; `now` is the value of `datetime.now()`.
Guard order follows the code: channel-mapping check, then bot/mention
filter, then the thread-reply branch (taken when `event.get("thread_ts")`
is truthy), else the top-level branch. -/
def handle_message (mon : List (String × String)) (reg : Registry) (ev : MsgEvent)
    (now : Int) : Registry :=
  match ev.channel with
  | none => reg
  | some ch =>
    if (mon.lookup ch).isNone then reg
    else if truthy ev.bot_id || contains_sub (ev.text.getD "") "<@" then reg
    else
      match ev.thread_ts with
      | some tts =>
        if tts == "" then handle_top_level reg ch ev now
        else remove_on_reply reg ch tts ev.user
      | none => handle_top_level reg ch ev now

/-- The sweep loop of `review_watched_threads` (lines 86-98): partition the
registry by `now - timestamp > timeout`; the expired data go to processing,
the rest become the new registry. -/
def sweep_expired (reg : Registry) (now tmo : Int) : List WatchData × Registry :=
  ((reg.filter fun p => decide (now - p.2.timestamp > tmo)).map Prod.snd,
   reg.filter fun p => !decide (now - p.2.timestamp > tmo))

/-- The sweep as the spec words it (§4.1 `sweep_expired`): expired exactly
when `watched_at + timeout < now`.  Stated from the spec's words, for
comparison with `sweep_expired` above. -/
def sweep_expired_specform (reg : Registry) (now tmo : Int) : List WatchData × Registry :=
  ((reg.filter fun p => decide (p.2.timestamp + tmo < now)).map Prod.snd,
   reg.filter fun p => decide (¬(p.2.timestamp + tmo < now)))

/-! ## ThreadLinkStorage (`thread_link_storage.py`)

The store keeps no in-memory state besides the lock: every operation goes
through the backing JSON file.  The file is embedded as
`Option LinkMap` (`none` = file absent), and JSON encode/decode as the
identity on the map. -/

/-- The value stored per notification timestamp (lines 62-65). -/
structure LinkInfo where
  original_channel_id : String
  original_thread_ts : String
  deriving DecidableEq

/-- The JSON object persisted in `thread_links.json`. -/
abbrev LinkMap := List (String × LinkInfo)

/-- `Option LinkMap`: the durable file, `none` when it does not exist. -/
abbrev FileState := Option LinkMap

/-- Dict item assignment `links[notification_ts] = ...`. -/
def link_insert (m : LinkMap) (k : String) (v : LinkInfo) : LinkMap :=
  (k, v) :: m.filter fun p => !(p.1 == k)

/-- `_ensure_file_exists` (lines 30-35): create an empty JSON object only
when the file is missing. -/
def ensure_file_exists : FileState → FileState
  | none => some []
  | some m => some m

/-- `_load_links` (lines 37-44): read the file; a missing or unreadable
file yields the empty map. -/
def load_links : FileState → LinkMap
  | none => []
  | some m => m

/-- `_save_links` (lines 46-50): overwrite the file with the given map. -/
def save_links (_f : FileState) (m : LinkMap) : FileState := some m

/-- `create_link` (lines 52-67): load, add the entry, save. -/
def create_link (f : FileState) (nts ch tts : String) : FileState :=
  save_links f (link_insert (load_links f) nts ⟨ch, tts⟩)

/-- `get_link` (lines 69-83): load and look up. -/
def get_link (f : FileState) (nts : String) : Option LinkInfo :=
  (load_links f).lookup nts

/-- A process restart: a fresh `ThreadLinkStorage.__init__` over the same
backing file runs `_ensure_file_exists` and nothing else. -/
def storage_restart (f : FileState) : FileState := ensure_file_exists f

/-! Two concurrent `create_link` writers.  The lock in the code is held
inside `_load_links` and inside `_save_links` separately, so the atomic
units of one `create_link` are exactly these two steps; between them the
other writer may run.  The interleaving semantics below has one shared
file and two writers, each performing its load step then its save step. -/

/-- One in-flight `create_link` call: its arguments, the map it loaded
(`none` until its load step ran), and whether its save step ran. -/
structure WriterState where
  key : String
  info : LinkInfo
  loaded : Option LinkMap
  saved : Bool
  deriving DecidableEq

/-- Shared file plus two in-flight `create_link` calls. -/
structure TwoWriters where
  file : LinkMap
  w1 : WriterState
  w2 : WriterState
  deriving DecidableEq

/-- The four lock-protected atomic steps available to the two writers. -/
inductive WStep where
  | load1 | save1 | load2 | save2
  deriving DecidableEq

/-- Execute one atomic step: a load step snapshots the file into the
writer; a save step (once loaded) writes the writer's modified map back. -/
def wstep (s : TwoWriters) : WStep → TwoWriters
  | .load1 => { s with w1 := { s.w1 with loaded := some s.file } }
  | .save1 =>
    match s.w1.loaded with
    | some m => { s with file := link_insert m s.w1.key s.w1.info,
                         w1 := { s.w1 with saved := true } }
    | none => s
  | .load2 => { s with w2 := { s.w2 with loaded := some s.file } }
  | .save2 =>
    match s.w2.loaded with
    | some m => { s with file := link_insert m s.w2.key s.w2.info,
                         w2 := { s.w2 with saved := true } }
    | none => s

/-- Run a schedule of atomic steps. -/
def wrun (s : TwoWriters) (steps : List WStep) : TwoWriters :=
  steps.foldl wstep s

/-! ## SessionManager (`session_manager.py`)

`time.time()` is embedded as an explicit integer parameter. -/

/-- The two dicts of `SessionManager` (`sessions`, `last_used`), keyed by
`(channel, thread_ts)`.  The `ttl_minutes` constructor argument is
discarded by the code and so does not appear. -/
structure SessionManager where
  sessions : List ((String × String) × String)
  last_used : List ((String × String) × Int)
  deriving DecidableEq

/-- Dict item assignment on `sessions`. -/
def sess_insert (m : List ((String × String) × String)) (k : String × String)
    (v : String) : List ((String × String) × String) :=
  (k, v) :: m.filter fun p => !(p.1 == k)

/-- Dict item assignment on `last_used`. -/
def used_insert (m : List ((String × String) × Int)) (k : String × String)
    (v : Int) : List ((String × String) × Int) :=
  (k, v) :: m.filter fun p => !(p.1 == k)

/-- `get_or_create_session` (lines 8-12): return the stored id, or mint
`f"session-{int(time.time())}"` and store it.  Note: `last_used` is not
touched. -/
def get_or_create_session (m : SessionManager) (ch tts : String) (now : Int) :
    String × SessionManager :=
  match m.sessions.lookup (ch, tts) with
  | some sid => (sid, m)
  | none =>
    let sid := "session-" ++ toString now
    (sid, { m with sessions := sess_insert m.sessions (ch, tts) sid })

/-- `update_last_used` (lines 14-15). -/
def update_last_used (m : SessionManager) (ch tts : String) (now : Int) :
    SessionManager :=
  { m with last_used := used_insert m.last_used (ch, tts) now }

/-- `purge_old` (lines 17-21): for each `last_used` item older than the
cutoff, pop the key from both dicts. -/
def purge_old (m : SessionManager) (now cutoff : Int) : SessionManager :=
  let stale := m.last_used.filter fun p => decide (now - p.2 > cutoff)
  { sessions := m.sessions.filter fun p => !(stale.any fun q => q.1 == p.1),
    last_used := m.last_used.filter fun p => !decide (now - p.2 > cutoff) }

/-! ## Per-thread processing (`_process_single_thread`, lines 108-164)

Each external call inside the `try` block is embedded as an oracle value of
type `Except String _` (`error` = the call raised).  The `try/except` is
embedded by propagating the first error, together with the side effects
performed before it, out of `process_body`; the wrapper
`process_single_thread` turns that into a normal return, as the `except`
clause does. -/

/-- The spec's per-watch terminal states (§4.2), plus the caught-error
outcome of the `except` clause. -/
inductive ThreadOutcome where
  | resolved_by_reply | expired_skipped | expired_answered | error_logged
  deriving DecidableEq

/-- The observable effects of one `_process_single_thread` run: which
external writes happened and how the watch was classified. -/
structure PTResult where
  outcome : ThreadOutcome
  classifier_queried : Bool
  origin_posted : Bool
  notif_posted : Bool
  link_created : Option (String × String × String)
  deriving DecidableEq

/-- No effects yet (start of the `try` block). -/
def PTResult.base : PTResult :=
  ⟨.expired_skipped, false, false, false, none⟩

/-- Oracle values for the external calls made while processing one thread:
the message list returned by `conversations_replies(..).get("messages", [])`,
the concatenated classifier stream, the generated response, the origin
post, the notification text, `chat_getPermalink(..).get("permalink")`,
`chat_postMessage(notification).get("ts")`, and `create_link`. -/
structure PTEnv where
  replies : Except String (List String)
  classifier_chunks : Except String String
  response_chunks : Except String String
  post_origin : Except String Unit
  notif_chunks : Except String String
  permalink : Except String (Option String)
  post_notif : Except String (Option String)
  link_write : Except String Unit

/-- `_is_technical_question` (lines 166-171): `"yes" in response.lower()`. -/
def is_yes (response : String) : Bool :=
  has_sub_chars (response.data.map Char.toLower) "yes".data

/-- The body of the `try` block of `_process_single_thread`, in the order
the code performs its calls; an error carries the effects already
performed. -/
def process_body (mon : List (String × String)) (td : WatchData) (env : PTEnv) :
    Except (String × PTResult) PTResult :=
  match env.replies with
  | .error e => .error (e, PTResult.base)
  | .ok msgs =>
    if 1 < msgs.length then .ok { PTResult.base with outcome := .resolved_by_reply }
    else
      match env.classifier_chunks with
      | .error e => .error (e, PTResult.base)
      | .ok resp =>
        let eff1 : PTResult := { PTResult.base with classifier_queried := true }
        if is_yes resp then
          match env.response_chunks with
          | .error e => .error (e, eff1)
          | .ok _ =>
            match env.post_origin with
            | .error e => .error (e, eff1)
            | .ok _ =>
              let eff2 : PTResult := { eff1 with origin_posted := true }
              match mon.lookup td.channel_id with
              | none => .ok { eff2 with outcome := .expired_answered }
              | some _ =>
                match env.notif_chunks with
                | .error e => .error (e, eff2)
                | .ok _ =>
                  match env.permalink with
                  | .error e => .error (e, eff2)
                  | .ok _ =>
                    match env.post_notif with
                    | .error e => .error (e, eff2)
                    | .ok none =>
                      .ok { eff2 with outcome := .expired_answered, notif_posted := true }
                    | .ok (some nts) =>
                      let eff3 : PTResult := { eff2 with notif_posted := true }
                      match env.link_write with
                      | .error e => .error (e, eff3)
                      | .ok _ =>
                        .ok { eff3 with
                              outcome := .expired_answered,
                              link_created := some (nts, td.channel_id, td.thread_ts) }
        else .ok { eff1 with outcome := .expired_skipped }

/-- `_process_single_thread`: the `except Exception` clause logs the error
and returns normally with whatever effects already happened. -/
def process_single_thread (mon : List (String × String)) (td : WatchData)
    (env : PTEnv) : PTResult :=
  match process_body mon td env with
  | .ok r => r
  | .error (_, effs) => { effs with outcome := .error_logged }

/-- `review_watched_threads` (lines 82-106): sweep, then process every
expired watch (each with its own oracle environment `envf`); returns the
new registry and the per-thread results. -/
def review_watched_threads (mon : List (String × String)) (reg : Registry)
    (now tmo : Int) (envf : WatchData → PTEnv) : Registry × List PTResult :=
  let swept := sweep_expired reg now tmo
  (swept.2, swept.1.map fun td => process_single_thread mon td (envf td))

/-! ## General lemmas about the association-list embedding of dicts -/

/-- Filtering out one key does not change lookup at another key. -/
theorem lookup_filter_ne {α β : Type} [DecidableEq α] (l : List (α × β)) (k1 k2 : α)
    (h : k1 ≠ k2) : (l.filter fun p => !(p.1 == k2)).lookup k1 = l.lookup k1 := by
  induction l with
  | nil => rfl
  | cons p t ih =>
    by_cases hp : p.1 = k2
    · have hk : (k1 == k2) = false := by simp [h]
      simp [List.filter, hp, List.lookup, hk, ih]
    · have hf : (p.1 == k2) = false := by simp [hp]
      by_cases hq : k1 = p.1
      · simp [List.filter, hf, List.lookup, hq]
      · have hk : (k1 == p.1) = false := by simp [hq]
        simp [List.filter, hf, List.lookup, hk, ih]

/-- After filtering a key out, lookup at that key misses. -/
theorem lookup_filter_self {α β : Type} [DecidableEq α] (l : List (α × β)) (k : α) :
    (l.filter fun p => !(p.1 == k)).lookup k = none := by
  induction l with
  | nil => rfl
  | cons p t ih =>
    by_cases hp : p.1 = k
    · simp [List.filter, hp, ih]
    · have hf : (p.1 == k) = false := by simp [hp]
      have hk : (k == p.1) = false := by simp [Ne.symm hp]
      simp [List.filter, hf, List.lookup, hk, ih]

/-- Entries at a filtered-out key are all gone. -/
theorem countP_filter_self {α β : Type} [DecidableEq α] (l : List (α × β)) (k : α) :
    ((l.filter fun p => !(p.1 == k)).countP fun p => p.1 == k) = 0 := by
  rw [List.countP_eq_zero]
  intro p hp
  have := (List.mem_filter.mp hp).2
  simpa using this

/-! ## Claim theorems -/

/-- Claim C6: `sweep_expired(now, timeout)` classifies an entry as expired
exactly when `watched_at + timeout < now`; equivalently, the code's
partition by `now - timestamp > timeout` coincides with the spec's
partition into `{expired: watched_at + timeout < now}` and the
still-watched rest, so a watch is never expired while
`now ≤ watched_at + timeout`. -/
theorem sweep_expired_threshold_spec (reg : Registry) (now tmo : Int) :
    sweep_expired reg now tmo = sweep_expired_specform reg now tmo := by
  unfold sweep_expired sweep_expired_specform
  have h1 : ∀ p : String × WatchData, p ∈ reg →
      decide (now - p.2.timestamp > tmo) = decide (p.2.timestamp + tmo < now) := by
    intro p _; rw [decide_eq_decide]; omega
  have h2 : ∀ p : String × WatchData, p ∈ reg →
      (!decide (now - p.2.timestamp > tmo)) = decide (¬(p.2.timestamp + tmo < now)) := by
    intro p _; rw [← decide_not, decide_eq_decide]; omega
  rw [List.filter_congr h1, List.filter_congr h2]

/-- Claim C7: any nonempty sequence of `add_or_replace` calls at one
`(channel_id, message_id)` key leaves exactly one registry entry at that
key, holding the author, text and timestamp of the last call. -/
theorem add_or_replace_last_writer_wins (reg : Registry) (ch mts : String)
    (calls : List (String × String × Int)) (h : calls ≠ []) :
    ((calls.foldl (fun r c => add_or_replace r ch mts c.1 c.2.1 c.2.2) reg).lookup
        (ch ++ "-" ++ mts)
      = some ⟨ch, mts, (calls.getLast h).1, (calls.getLast h).2.1, (calls.getLast h).2.2⟩)
    ∧ ((calls.foldl (fun r c => add_or_replace r ch mts c.1 c.2.1 c.2.2) reg).countP
        fun p => p.1 == ch ++ "-" ++ mts) = 1 := by
  induction calls generalizing reg with
  | nil => exact absurd rfl h
  | cons c cs ih =>
    cases cs with
    | nil =>
      refine ⟨?_, ?_⟩
      · simp [add_or_replace, reg_insert, List.lookup]
      · simp only [List.foldl, add_or_replace, reg_insert, List.countP_cons]
        simp [countP_filter_self]
    | cons c2 cs2 =>
      have h2 : (c2 :: cs2) ≠ [] := by simp
      have := ih (add_or_replace reg ch mts c.1 c.2.1 c.2.2) h2
      simpa [List.getLast] using this

/-- Witness for `add_or_replace_last_writer_wins`: two calls at the key
`"C-1"`; the second call's data survives, in a single entry. -/
theorem add_or_replace_last_writer_wins_witness :
    ([("U1", "t1", (0 : Int)), ("U2", "t2", 5)] ≠ [])
    ∧ ((([("U1", "t1", (0 : Int)), ("U2", "t2", 5)].foldl
          (fun r c => add_or_replace r "C" "1" c.1 c.2.1 c.2.2) []).lookup
          ("C" ++ "-" ++ "1")
        = some ⟨"C", "1",
            ([("U1", "t1", (0 : Int)), ("U2", "t2", 5)].getLast (by decide)).1,
            ([("U1", "t1", (0 : Int)), ("U2", "t2", 5)].getLast (by decide)).2.1,
            ([("U1", "t1", (0 : Int)), ("U2", "t2", 5)].getLast (by decide)).2.2⟩)
      ∧ (([("U1", "t1", (0 : Int)), ("U2", "t2", 5)].foldl
          (fun r c => add_or_replace r "C" "1" c.1 c.2.1 c.2.2) []).countP
          fun p => p.1 == "C" ++ "-" ++ "1") = 1) :=
  ⟨by decide,
   add_or_replace_last_writer_wins [] "C" "1" [("U1", "t1", 0), ("U2", "t2", 5)]
     (by decide)⟩

/-- Claim C8: `get_link(X)` right after `create_link(X, C, T)` returns
exactly the pair `{C, T}`, and still does so after a simulated restart
(a fresh `__init__` over the same backing file), because both operations
read the persisted file rather than an in-memory cache. -/
theorem create_link_get_link_roundtrip (f : FileState) (X C T : String) :
    get_link (create_link f X C T) X = some ⟨C, T⟩
    ∧ get_link (storage_restart (create_link f X C T)) X = some ⟨C, T⟩ := by
  constructor <;>
    simp [get_link, create_link, storage_restart, ensure_file_exists, save_links,
      load_links, link_insert, List.lookup]

/-- Claim C5 fails as stated: watches are keyed by the concatenated string
`f"{channel_id}-{message_ts}"`, so the two distinct pairs `("a-b", "c")`
and `("a", "b-c")` share the key `"a-b-c"`; `add_or_replace` at the second
pair overwrites the watch stored at the first. -/
theorem colliding_pairs_share_registry_entry :
    (add_or_replace [] "a-b" "c" "U1" "t1" 0).lookup ("a-b" ++ "-" ++ "c")
      = some ⟨"a-b", "c", "U1", "t1", 0⟩
    ∧ (add_or_replace (add_or_replace [] "a-b" "c" "U1" "t1" 0)
        "a" "b-c" "U2" "t2" 1).lookup ("a-b" ++ "-" ++ "c")
      = some ⟨"a", "b-c", "U2", "t2", 1⟩ := by decide

/-- Claim C5 amended: for every two pairs whose concatenated key strings
`channel_id ++ "-" ++ message_id` differ, `add_or_replace` at one pair
leaves the registry entry at the other pair's key unchanged. -/
theorem add_or_replace_other_key_frame (reg : Registry)
    (ch1 ts1 ch2 ts2 uid text : String) (now : Int)
    (h : ch1 ++ "-" ++ ts1 ≠ ch2 ++ "-" ++ ts2) :
    (add_or_replace reg ch2 ts2 uid text now).lookup (ch1 ++ "-" ++ ts1)
      = reg.lookup (ch1 ++ "-" ++ ts1) := by
  unfold add_or_replace reg_insert
  have hk : (ch1 ++ "-" ++ ts1 == ch2 ++ "-" ++ ts2) = false := by simp [h]
  simp only [List.lookup, hk]
  exact lookup_filter_ne reg _ _ h

/-- Witness for `add_or_replace_other_key_frame` at the concrete pairs
`("C", "1")` and `("C", "2")`. -/
theorem add_or_replace_other_key_frame_witness :
    ("C" ++ "-" ++ "1" ≠ "C" ++ "-" ++ "2")
    ∧ (add_or_replace [("C-1", ⟨"C", "1", "U1", "q", 0⟩)] "C" "2" "U2" "r" 7).lookup
        ("C" ++ "-" ++ "1")
      = [("C-1", (⟨"C", "1", "U1", "q", 0⟩ : WatchData))].lookup ("C" ++ "-" ++ "1") :=
  ⟨by decide,
   add_or_replace_other_key_frame [("C-1", ⟨"C", "1", "U1", "q", 0⟩)] "C" "1" "C" "2"
     "U2" "r" 7 (by decide)⟩

/-- Claim C9: an event that is a reply in a watched thread (truthy
`thread_ts`) whose user equals the watch's author never changes the
registry: `handle_message` returns it untouched on every path such an
event can take. -/
theorem self_reply_leaves_registry (mon : List (String × String)) (reg : Registry)
    (ev : MsgEvent) (now : Int) (ch tts : String) (wd : WatchData)
    (hch : ev.channel = some ch) (hts : ev.thread_ts = some tts) (hne : tts ≠ "")
    (hw : reg.lookup (ch ++ "-" ++ tts) = some wd)
    (hu : ev.user = some wd.user_id) :
    handle_message mon reg ev now = reg := by
  have hbne : (tts == "") = false := by simp [hne]
  unfold handle_message
  rw [hch]
  by_cases hmon : (mon.lookup ch).isNone
  · simp [hmon]
  · simp only [hmon, Bool.false_eq_true, if_false, if_neg]
    by_cases hflt : (truthy ev.bot_id || contains_sub (ev.text.getD "") "<@") = true
    · simp [hflt]
    · simp only [hflt, Bool.false_eq_true, if_false, if_neg]
      rw [hts]
      simp only [hbne, Bool.false_eq_true, if_false, if_neg]
      unfold remove_on_reply
      rw [hw, hu]
      simp

/-- Witness for `self_reply_leaves_registry`: a concrete self-reply in a
watched, monitored thread. -/
theorem self_reply_leaves_registry_witness :
    ((⟨some "C", none, some "never mind", some "1", some "2", some "U1"⟩ :
        MsgEvent).channel = some "C")
    ∧ ((⟨some "C", none, some "never mind", some "1", some "2", some "U1"⟩ :
        MsgEvent).thread_ts = some "1")
    ∧ ("1" : String) ≠ ""
    ∧ ([("C-1", (⟨"C", "1", "U1", "q", 0⟩ : WatchData))].lookup ("C" ++ "-" ++ "1")
        = some ⟨"C", "1", "U1", "q", 0⟩)
    ∧ ((⟨some "C", none, some "never mind", some "1", some "2", some "U1"⟩ :
        MsgEvent).user = some (⟨"C", "1", "U1", "q", 0⟩ : WatchData).user_id)
    ∧ handle_message [("C", "N")] [("C-1", ⟨"C", "1", "U1", "q", 0⟩)]
        ⟨some "C", none, some "never mind", some "1", some "2", some "U1"⟩ 5
      = [("C-1", ⟨"C", "1", "U1", "q", 0⟩)] :=
  ⟨rfl, rfl, by decide, by decide, rfl,
   self_reply_leaves_registry [("C", "N")] [("C-1", ⟨"C", "1", "U1", "q", 0⟩)]
     ⟨some "C", none, some "never mind", some "1", some "2", some "U1"⟩ 5 "C" "1"
     ⟨"C", "1", "U1", "q", 0⟩ rfl rfl (by decide) (by decide) rfl⟩

/-- Claim C1 fails as stated: a non-author reply whose text contains the
mention marker `"<@"` is rejected by the ingestion filter before the
reply branch runs, so the watch stays registered and a later
`review_watched_threads` does process it.  Here the reply from `"U2"`
(author is `"U1"`) arrives at t=5, well before the timeout, yet the sweep
at t=1000 with timeout 10 still selects the watch for processing. -/
theorem mention_reply_leaves_watch_for_sweep :
    handle_message [("C", "N")] [("C-1", ⟨"C", "1", "U1", "q", 0⟩)]
        ⟨some "C", none, some "<@U9> thanks", some "1", some "2", some "U2"⟩ 5
      = [("C-1", ⟨"C", "1", "U1", "q", 0⟩)]
    ∧ (sweep_expired
        (handle_message [("C", "N")] [("C-1", ⟨"C", "1", "U1", "q", 0⟩)]
          ⟨some "C", none, some "<@U9> thanks", some "1", some "2", some "U2"⟩ 5)
        1000 10).1
      = [⟨"C", "1", "U1", "q", 0⟩] := by decide

/-- Claim C1 amended: if a reply event that passes the ingestion filters
(no automated-sender id, no mention marker in its text, channel monitored)
arrives for a watched key from a user different from the watch's author,
then the watch is removed and no later run of `review_watched_threads`
selects that key for processing (at any time and timeout). -/
theorem filtered_nonauthor_reply_unwatches (mon : List (String × String))
    (reg : Registry) (ev : MsgEvent) (now : Int) (ch tts : String) (wd : WatchData)
    (hch : ev.channel = some ch) (hmon : (mon.lookup ch).isSome = true)
    (hbot : truthy ev.bot_id = false)
    (hment : contains_sub (ev.text.getD "") "<@" = false)
    (hts : ev.thread_ts = some tts) (hne : tts ≠ "")
    (hw : reg.lookup (ch ++ "-" ++ tts) = some wd)
    (hu : ev.user ≠ some wd.user_id)
    (hinv : ∀ p ∈ reg, p.1 = p.2.channel_id ++ "-" ++ p.2.thread_ts) :
    (handle_message mon reg ev now).lookup (ch ++ "-" ++ tts) = none
    ∧ ∀ (now2 tmo : Int) (td : WatchData),
        td ∈ (sweep_expired (handle_message mon reg ev now) now2 tmo).1 →
        td.channel_id ++ "-" ++ td.thread_ts ≠ ch ++ "-" ++ tts := by
  have hbne : (tts == "") = false := by simp [hne]
  have hreg : handle_message mon reg ev now = reg_erase reg (ch ++ "-" ++ tts) := by
    unfold handle_message
    rw [hch]
    have hmonf : (mon.lookup ch).isNone = false := by
      cases hval : mon.lookup ch with
      | none => rw [hval] at hmon; simp at hmon
      | some v => simp
    simp only [hmonf, Bool.false_eq_true, if_false, if_neg]
    simp only [hbot, hment, Bool.or_self, Bool.false_eq_true, if_false, if_neg]
    rw [hts]
    simp only [hbne, Bool.false_eq_true, if_false, if_neg]
    unfold remove_on_reply
    rw [hw]
    simp [hu]
  rw [hreg]
  refine ⟨lookup_filter_self reg _, ?_⟩
  intro now2 tmo td hmem
  unfold sweep_expired at hmem
  simp only [List.mem_map] at hmem
  obtain ⟨p, hp, rfl⟩ := hmem
  have hp1 := (List.mem_filter.mp hp).1
  have hp2 := List.mem_filter.mp hp1
  have hkf : (p.1 == ch ++ "-" ++ tts) = false := by simpa using hp2.2
  have hpk := hinv p hp2.1
  rw [← hpk]
  simpa using hkf

/-- Witness for `filtered_nonauthor_reply_unwatches`: a plain non-author
reply (no bot id, no mention) in a monitored, watched thread. -/
theorem filtered_nonauthor_reply_unwatches_witness :
    ((⟨some "C", none, some "done", some "1", some "2", some "U2"⟩ :
        MsgEvent).channel = some "C")
    ∧ (([("C", "N")] : List (String × String)).lookup "C").isSome = true
    ∧ truthy (⟨some "C", none, some "done", some "1", some "2", some "U2"⟩ :
        MsgEvent).bot_id = false
    ∧ contains_sub ((⟨some "C", none, some "done", some "1", some "2", some "U2"⟩ :
        MsgEvent).text.getD "") "<@" = false
    ∧ ((⟨some "C", none, some "done", some "1", some "2", some "U2"⟩ :
        MsgEvent).thread_ts = some "1")
    ∧ ("1" : String) ≠ ""
    ∧ ([("C-1", (⟨"C", "1", "U1", "q", 0⟩ : WatchData))].lookup ("C" ++ "-" ++ "1")
        = some ⟨"C", "1", "U1", "q", 0⟩)
    ∧ ((⟨some "C", none, some "done", some "1", some "2", some "U2"⟩ :
        MsgEvent).user ≠ some (⟨"C", "1", "U1", "q", 0⟩ : WatchData).user_id)
    ∧ ((handle_message [("C", "N")] [("C-1", ⟨"C", "1", "U1", "q", 0⟩)]
          ⟨some "C", none, some "done", some "1", some "2", some "U2"⟩ 5).lookup
          ("C" ++ "-" ++ "1") = none
      ∧ ∀ (now2 tmo : Int) (td : WatchData),
          td ∈ (sweep_expired
            (handle_message [("C", "N")] [("C-1", ⟨"C", "1", "U1", "q", 0⟩)]
              ⟨some "C", none, some "done", some "1", some "2", some "U2"⟩ 5)
            now2 tmo).1 →
          td.channel_id ++ "-" ++ td.thread_ts ≠ "C" ++ "-" ++ "1") :=
  ⟨rfl, by decide, rfl, by decide, rfl, by decide, by decide, by decide,
   filtered_nonauthor_reply_unwatches [("C", "N")] [("C-1", ⟨"C", "1", "U1", "q", 0⟩)]
     ⟨some "C", none, some "done", some "1", some "2", some "U2"⟩ 5 "C" "1"
     ⟨"C", "1", "U1", "q", 0⟩ rfl (by decide) rfl (by decide) rfl (by decide)
     (by decide) (by decide) (by decide)⟩

/-- Claim C2: when the reply query for the origin thread returns more than
the parent message (i.e. some reply exists), `_process_single_thread`
classifies the watch as resolved-by-reply and stops: the classifier is not
queried and no response, notification or link is produced. -/
theorem existing_reply_short_circuits (mon : List (String × String)) (td : WatchData)
    (env : PTEnv) (msgs : List String) (h1 : env.replies = Except.ok msgs)
    (h2 : 1 < msgs.length) :
    process_single_thread mon td env
      = ⟨.resolved_by_reply, false, false, false, none⟩ := by
  unfold process_single_thread process_body
  rw [h1]
  simp [h2, PTResult.base]

/-- Witness for `existing_reply_short_circuits`: a two-message thread
(parent plus one reply). -/
theorem existing_reply_short_circuits_witness :
    ((⟨Except.ok ["parent", "reply"], Except.ok "", Except.ok "", Except.ok (),
        Except.ok "", Except.ok none, Except.ok none, Except.ok ()⟩ : PTEnv).replies
      = Except.ok ["parent", "reply"])
    ∧ 1 < (["parent", "reply"] : List String).length
    ∧ process_single_thread [] ⟨"C", "1", "U", "q", 0⟩
        ⟨Except.ok ["parent", "reply"], Except.ok "", Except.ok "", Except.ok (),
         Except.ok "", Except.ok none, Except.ok none, Except.ok ()⟩
      = ⟨.resolved_by_reply, false, false, false, none⟩ :=
  ⟨rfl, by decide,
   existing_reply_short_circuits [] ⟨"C", "1", "U", "q", 0⟩ _ ["parent", "reply"]
     rfl (by decide)⟩

/-- Claim C10: a failure in any external call of `_process_single_thread`
is caught: the call returns normally with the error merely logged, the
sweep still yields one result per expired watch, and any sibling thread's
result depends only on that sibling's own oracle environment. -/
theorem per_thread_failure_contained (mon : List (String × String)) (td : WatchData)
    (env : PTEnv) (e : String) (effs : PTResult)
    (h : process_body mon td env = Except.error (e, effs)) :
    process_single_thread mon td env = { effs with outcome := .error_logged }
    ∧ (∀ (reg : Registry) (now tmo : Int) (envf : WatchData → PTEnv),
        (review_watched_threads mon reg now tmo envf).2.length
          = (sweep_expired reg now tmo).1.length)
    ∧ (∀ (td2 : WatchData) (envf envf2 : WatchData → PTEnv),
        envf2 td2 = envf td2 →
          process_single_thread mon td2 (envf2 td2)
            = process_single_thread mon td2 (envf td2)) := by
  refine ⟨?_, ?_, ?_⟩
  · unfold process_single_thread
    rw [h]
  · intro reg now tmo envf
    unfold review_watched_threads
    simp
  · intro td2 envf envf2 h2
    rw [h2]

/-- Witness for `per_thread_failure_contained`: the reply query raises. -/
theorem per_thread_failure_contained_witness :
    process_body [] ⟨"C", "1", "U", "q", 0⟩
        ⟨Except.error "boom", Except.ok "", Except.ok "", Except.ok (), Except.ok "",
         Except.ok none, Except.ok none, Except.ok ()⟩
      = Except.error ("boom", PTResult.base)
    ∧ (process_single_thread [] ⟨"C", "1", "U", "q", 0⟩
          ⟨Except.error "boom", Except.ok "", Except.ok "", Except.ok (), Except.ok "",
           Except.ok none, Except.ok none, Except.ok ()⟩
        = { PTResult.base with outcome := .error_logged }
      ∧ (∀ (reg : Registry) (now tmo : Int) (envf : WatchData → PTEnv),
          (review_watched_threads [] reg now tmo envf).2.length
            = (sweep_expired reg now tmo).1.length)
      ∧ (∀ (td2 : WatchData) (envf envf2 : WatchData → PTEnv),
          envf2 td2 = envf td2 →
            process_single_thread [] td2 (envf2 td2)
              = process_single_thread [] td2 (envf td2))) :=
  ⟨rfl,
   per_thread_failure_contained [] ⟨"C", "1", "U", "q", 0⟩ _ "boom" PTResult.base rfl⟩

/-- The two-writer run in which both `create_link` calls load before
either saves: the interleaving the per-call lock of the code permits. -/
def lost_update_demo : TwoWriters :=
  wrun ⟨[], ⟨"n1", ⟨"C1", "T1"⟩, none, false⟩, ⟨"n2", ⟨"C2", "T2"⟩, none, false⟩⟩
    [.load1, .load2, .save1, .save2]

/-- The serialized two-writer run (each call's load-modify-save runs as a
unit), i.e. what a lock held across the whole of `create_link` would force. -/
def serialized_demo : TwoWriters :=
  wrun ⟨[], ⟨"n1", ⟨"C1", "T1"⟩, none, false⟩, ⟨"n2", ⟨"C2", "T2"⟩, none, false⟩⟩
    [.load1, .save1, .load2, .save2]

/-- Claim C3 is violated by the code: the lock is taken and released
inside `_load_links` and `_save_links` separately, so the schedule
load1-load2-save1-save2 is permitted; both writers complete, yet writer 1's
link `"n1"` is absent from the stored mapping (lost update).  Under the
serialized schedule — the behavior the claim describes — both links
persist. -/
theorem create_link_lost_update :
    lost_update_demo.w1.saved = true
    ∧ lost_update_demo.w2.saved = true
    ∧ lost_update_demo.file.lookup "n1" = none
    ∧ lost_update_demo.file.lookup "n2" = some ⟨"C2", "T2"⟩
    ∧ serialized_demo.file.lookup "n1" = some ⟨"C1", "T1"⟩
    ∧ serialized_demo.file.lookup "n2" = some ⟨"C2", "T2"⟩ := by decide

/-- Claim C4 is violated by the code: a session created by
`get_or_create_session` and never touched by `update_last_used` has no
`last_used` entry, and `purge_old` only iterates over `last_used`; so a
purge arbitrarily far in the future removes nothing, and the next
`get_or_create_session` returns the stale session instead of a fresh one. -/
theorem untouched_session_survives_purge :
    purge_old ((get_or_create_session ⟨[], []⟩ "C" "T" 0).2) 1000000 1800
      = (get_or_create_session ⟨[], []⟩ "C" "T" 0).2
    ∧ ((get_or_create_session ⟨[], []⟩ "C" "T" 0).2).sessions.lookup ("C", "T")
      = some ("session-" ++ toString (0 : Int))
    ∧ (get_or_create_session
          (purge_old ((get_or_create_session ⟨[], []⟩ "C" "T" 0).2) 1000000 1800)
          "C" "T" 999999).1
      = "session-" ++ toString (0 : Int) := by decide

end SlackEngine
